import Mathlib

/-!
Verification of the `GraphNav` navigation widget and its sibling variants from the
personal-portfolio repository. The development embeds, in exact (real/rational)
arithmetic, the layout geometry (`calculatePositions`, radius clamping, edge
trimming) and the interaction handlers (`activate`, satellite click/keydown,
modal handling, timer scheduling) of:

* `src/web/src/components/graph/GraphNav.tsx` (three concatenated variants),
* `src/unnamed/part_000` and `src/unnamed/part_001` (two further variants),
* `src/web/src/app/page.tsx` and `src/web/src/components/ui/Typewriter.tsx`.

Numbers that the TypeScript source manipulates as IEEE doubles are modelled as
exact reals (for the geometry) or rationals (for the view-state machine).
-/

set_option autoImplicit false

namespace Site

/-! ### Data model

`NavNode` as declared in every variant: `{ id, label, href }`. -/

structure NavNode where
  id : String
  label : String
  href : String
deriving DecidableEq, Repr

/-- The fixed node set (GraphNav.tsx, first variant, lines 16-23). -/
def NODES : List NavNode :=
  [ ⟨"home", "Home", "/"⟩,
    ⟨"about", "About Me", "/about"⟩,
    ⟨"education", "Education", "/education"⟩,
    ⟨"experience", "Experience", "/experience"⟩,
    ⟨"projects", "Projects", "/projects"⟩,
    ⟨"contact", "Contact", "/contact"⟩ ]

/-- Wheel-spin duration in ms (GraphNav.tsx line 30: `const SPIN_MS = 7000`). -/
def SPIN_MS : ℕ := 7000

/-! ### Interaction state machine, first `GraphNav.tsx` variant (lines 32-472)

State mirrors the component's `useState` hooks that the activation handlers
touch: `spinKey`, `showContent`, `expandingNode`, `expansionProgress`,
`expansionOrigin`. Coordinates are rationals. -/

structure V1State where
  spinKey : ℕ
  showContent : Bool
  expandingNode : Option String
  expansionProgress : ℚ
  expansionOrigin : ℚ × ℚ
deriving DecidableEq, Repr

/-- Initial hook values (GraphNav.tsx lines 42-53). -/
def v1Init : V1State := ⟨0, false, none, 0, (0, 0)⟩

/-- Externally visible effects of a handler call. `select id pos delayMs`
records a call of the `onSelect` collaborator with the given centre position,
scheduled `delayMs` milliseconds in the future (0 = synchronous call). -/
inductive UIEffect
  | blurActive
  | animExpansion (nodeId : String)
  | select (nodeId : String) (pos : ℚ × ℚ) (delayMs : ℕ)
deriving DecidableEq, Repr

/-- `closeContent` (GraphNav.tsx lines 244-248). -/
def closeContent (s : V1State) : V1State :=
  { s with showContent := false, expandingNode := none, expansionProgress := 0 }

/-- State update performed synchronously by `startSphereExpansion`
(GraphNav.tsx lines 191-223): record the expanding node, reset the progress,
set the origin to the supplied button position or else the layout centre, and
start the animation-frame chain. -/
def startSphereExpansion (cx cy : ℚ) (s : V1State) (nodeId : String)
    (buttonPosition : Option (ℚ × ℚ)) : V1State × List UIEffect :=
  ({ s with
      expandingNode := some nodeId,
      expansionProgress := 0,
      expansionOrigin := buttonPosition.getD (cx, cy) },
   [UIEffect.animExpansion nodeId])

/-- The `activate` click handler (GraphNav.tsx lines 157-188): blur, then for
home either close open content, or spin and schedule `onSelect` after
`SPIN_MS` (immediately under reduced motion); for satellites start the sphere
expansion (or call `onSelect` immediately under reduced motion). -/
def activate (cx cy : ℚ) (reduced : Bool) (s : V1State) (nodeId : String) :
    V1State × List UIEffect :=
  if nodeId = "home" then
    if s.showContent then
      (closeContent s, [UIEffect.blurActive])
    else if !reduced then
      ({ s with spinKey := s.spinKey + 1 },
       [UIEffect.blurActive, UIEffect.select "home" (cx, cy) SPIN_MS])
    else
      (s, [UIEffect.blurActive, UIEffect.select "home" (cx, cy) 0])
  else
    if !reduced then
      let r := startSphereExpansion cx cy s nodeId none
      (r.1, UIEffect.blurActive :: r.2)
    else
      (s, [UIEffect.blurActive, UIEffect.select nodeId (cx, cy) 0])

/-- Home button `onClick` (GraphNav.tsx line 365). -/
def clickHome (cx cy : ℚ) (reduced : Bool) (s : V1State) :
    V1State × List UIEffect :=
  activate cx cy reduced s "home"

/-- Home button `onKeyDown` (GraphNav.tsx lines 374-379): Enter or Space
activates, any other key is ignored. -/
def keydownHome (cx cy : ℚ) (reduced : Bool) (s : V1State) (key : String) :
    V1State × List UIEffect :=
  if key = "Enter" ∨ key = " " then activate cx cy reduced s "home" else (s, [])

/-- Satellite button `onClick` (GraphNav.tsx lines 441-454): when the container
rect is measurable it starts the sphere expansion directly at the measured
button centre — bypassing `activate` (no blur, no reduced-motion check);
otherwise it falls back to `activate`. -/
def clickSatellite (cx cy : ℚ) (reduced : Bool) (s : V1State) (nodeId : String)
    (measuredCenter : Option (ℚ × ℚ)) : V1State × List UIEffect :=
  match measuredCenter with
  | some m => startSphereExpansion cx cy s nodeId (some m)
  | none => activate cx cy reduced s nodeId

/-- Satellite button `onKeyDown` (GraphNav.tsx lines 455-460): Enter or Space
routes through `activate`. -/
def keydownSatellite (cx cy : ℚ) (reduced : Bool) (s : V1State)
    (nodeId : String) (key : String) : V1State × List UIEffect :=
  if key = "Enter" ∨ key = " " then activate cx cy reduced s nodeId else (s, [])

/-! ### Interaction state machine, third `GraphNav.tsx` variant (lines 1449-1856)

This variant keeps modal state (`isModalOpen`, `selectedNode`); it has no
expansion state at all. -/

structure V3State where
  spinKey : ℕ
  isModalOpen : Bool
  selectedNode : Option String
deriving DecidableEq, Repr

/-- `openModal` (GraphNav.tsx lines 1664-1667). -/
def openModal (s : V3State) (nodeId : String) : V3State :=
  { s with selectedNode := some nodeId, isModalOpen := true }

/-- `closeModal` (GraphNav.tsx lines 1669-1672). -/
def closeModal (s : V3State) : V3State :=
  { s with isModalOpen := false, selectedNode := none }

/-- The third variant's `activate` (GraphNav.tsx lines 1583-1610). Its home
branch reads `if (expandingNode) { closeContent(); return; }`, but neither
`expandingNode` nor `closeContent` is declared anywhere in this variant (its
state is `isModalOpen`/`selectedNode`), so the close path can never run and
the branch falls through to the spin-and-notify code. Satellites do nothing
here (their buttons call `openModal` directly). -/
def activateV3 (cx cy : ℚ) (reduced : Bool) (s : V3State) (nodeId : String) :
    V3State × List UIEffect :=
  if nodeId = "home" then
    if !reduced then
      ({ s with spinKey := s.spinKey + 1 },
       [UIEffect.blurActive, UIEffect.select "home" (cx, cy) SPIN_MS])
    else
      (s, [UIEffect.blurActive, UIEffect.select "home" (cx, cy) 0])
  else
    (s, [UIEffect.blurActive])

/-- Satellite `onClick` of the third variant (GraphNav.tsx lines 1836-1838). -/
def clickSatelliteV3 (s : V3State) (nodeId : String) : V3State × List UIEffect :=
  (openModal s nodeId, [])

/-- Satellite `onKeyDown` of the third variant (GraphNav.tsx lines 1839-1844). -/
def keydownSatelliteV3 (s : V3State) (nodeId : String) (key : String) :
    V3State × List UIEffect :=
  if key = "Enter" ∨ key = " " then (openModal s nodeId, []) else (s, [])

/-! ### Timer scheduling and teardown, first `GraphNav.tsx` variant

The component schedules three kinds of timeouts. The size effect's
`readyTimer` (line 137) and `spinTimer` (line 143) are cleared by the effect's
cleanup (lines 146-152), which React runs on unmount. The `setTimeout` in
`activate`'s home branch (lines 174-176) discards its id; no cleanup clears
it, so it fires even after the component is gone and then invokes `onSelect`. -/

inductive TimerKind
  | selectTimeout
  | readyTimer
  | spinTimer
deriving DecidableEq, Repr

/-- Whether a timer's id is retained by an effect cleanup (as in the source:
only the size effect's two timers are). -/
def cleanupManaged : TimerKind → Bool
  | .selectTimeout => false
  | .readyTimer => true
  | .spinTimer => true

structure SchedulerState where
  now : ℕ
  mounted : Bool
  pending : List (ℕ × TimerKind)
  selectCallsAfterUnmount : List ℕ
deriving DecidableEq, Repr

inductive UIEvent
  | activateHome
  | runSizeEffect
  | unmount
  | advanceTo (t : ℕ)
deriving DecidableEq, Repr

/-- Fire every pending timer due at or before `t`. A select timeout that fires
while the component is unmounted still runs its callback (nothing cancelled
it); such invocations are recorded. -/
def fireDue (s : SchedulerState) (t : ℕ) : SchedulerState :=
  let due := s.pending.filter (fun p => p.1 ≤ t)
  let rest := s.pending.filter (fun p => ¬ p.1 ≤ t)
  let selects := (due.filter (fun p => p.2 = TimerKind.selectTimeout)).map Prod.fst
  { s with
      now := t,
      pending := rest,
      selectCallsAfterUnmount :=
        s.selectCallsAfterUnmount ++ (if s.mounted then [] else selects) }

/-- One scheduler step. `activateHome` models the not-reduced home branch of
`activate` (schedule `onSelect` after `SPIN_MS`, id discarded); `unmount` runs
the effect cleanups, which clear exactly the cleanup-managed timer ids. -/
def stepEvent (s : SchedulerState) (e : UIEvent) : SchedulerState :=
  match e with
  | .activateHome =>
      if s.mounted then
        { s with pending := s.pending ++ [(s.now + SPIN_MS, TimerKind.selectTimeout)] }
      else s
  | .runSizeEffect =>
      if s.mounted then
        { s with pending :=
            s.pending ++ [(s.now + 100, TimerKind.readyTimer), (s.now + 1000, TimerKind.spinTimer)] }
      else s
  | .unmount =>
      { s with
          mounted := false,
          pending := s.pending.filter (fun p => cleanupManaged p.2 = false) }
  | .advanceTo t => fireDue s t

def runEvents (es : List UIEvent) : SchedulerState :=
  es.foldl stepEvent { now := 0, mounted := true, pending := [], selectCallsAfterUnmount := [] }

/-! ### Layout geometry

Visual constants of `GraphNav.tsx` (lines 26-29). -/

noncomputable def NODE_DIAM : ℝ := 88
noncomputable def HOME_DIAM : ℝ := 104
noncomputable def MARGIN : ℝ := 24

/-- Clamped radius of `src/unnamed/part_000` `calculatePositions`
(lines 38-41): `Math.max(140, Math.min(320, Math.min(w, h) * 0.33))`. -/
noncomputable def part000Radius (width height : ℝ) : ℝ :=
  max 140 (min 320 (min width height * 0.33))

/-- Outer semi-circle radius of the narrow branch (part_000 line 50). -/
noncomputable def part000OuterRadius (width height : ℝ) : ℝ :=
  min (part000Radius width height + 40) (min width height * 0.4)

/-- Inner semi-circle radius of the narrow branch (part_000 line 51). -/
noncomputable def part000InnerRadius (width height : ℝ) : ℝ :=
  max (part000Radius width height - 20) 100

/-- Clamped radius of `src/unnamed/part_001` `calculatePositions`
(lines 56-58): `Math.max(180, Math.min(420, Math.min(w, h) * 0.43))`. -/
noncomputable def part001Radius (width height : ℝ) : ℝ :=
  max 180 (min 420 (min width height * 0.43))

/-- Outer semi-circle radius of the narrow branch (part_001 line 67). -/
noncomputable def part001OuterRadius (width height : ℝ) : ℝ :=
  min (part001Radius width height + 50) (min width height * 0.5)

/-- Inner semi-circle radius of the narrow branch (part_001 line 68). -/
noncomputable def part001InnerRadius (width height : ℝ) : ℝ :=
  max (part001Radius width height - 30) 130

/-- First semi-circle of the narrow-screen branch (part_000 lines 54-59,
part_001 lines 71-76): three nodes at angles `(i − 1)·π/2` for `i = 1..3`,
that is `0, π/2, π`. -/
noncomputable def narrowFirstArc (centerX centerY outerRadius : ℝ) : List (ℝ × ℝ) :=
  (List.range 3).map fun (i : ℕ) =>
    let angle := (i : ℝ) * Real.pi / 2
    (centerX + Real.cos angle * outerRadius, centerY + Real.sin angle * outerRadius)

/-- Second semi-circle of the narrow-screen branch (part_000 lines 62-67,
part_001 lines 79-84): two nodes at angles `(i − 3)·π/2 + π` for `i = 4, 5`,
that is `3π/2, 2π`. -/
noncomputable def narrowSecondArc (centerX centerY innerRadius : ℝ) : List (ℝ × ℝ) :=
  (List.range 2).map fun (i : ℕ) =>
    let angle := ((i : ℝ) + 1) * Real.pi / 2 + Real.pi
    (centerX + Real.cos angle * innerRadius, centerY + Real.sin angle * innerRadius)

/-- Standard radial layout over the five non-home nodes (part_000 lines 70-76,
part_001 lines 87-93): angles `index · 2π / 5`. -/
noncomputable def standardArc (centerX centerY radius : ℝ) : List (ℝ × ℝ) :=
  (List.range 5).map fun (index : ℕ) =>
    let angle := (index : ℝ) * 2 * Real.pi / 5
    (centerX + Real.cos angle * radius, centerY + Real.sin angle * radius)

/-- `calculatePositions` of `src/unnamed/part_000` (lines 34-80): home node at
the centre, then either the two narrow-screen arcs (width < 380) or the
standard radial layout. -/
noncomputable def part000CalculatePositions (width height : ℝ) : List (ℝ × ℝ) :=
  let centerX := width / 2
  let centerY := height / 2
  if width < 380 then
    (centerX, centerY) ::
      (narrowFirstArc centerX centerY (part000OuterRadius width height) ++
        narrowSecondArc centerX centerY (part000InnerRadius width height))
  else
    (centerX, centerY) :: standardArc centerX centerY (part000Radius width height)

/-- `calculatePositions` of `src/unnamed/part_001` (lines 51-97); identical
shape with the larger constants. -/
noncomputable def part001CalculatePositions (width height : ℝ) : List (ℝ × ℝ) :=
  let centerX := width / 2
  let centerY := height / 2
  if width < 380 then
    (centerX, centerY) ::
      (narrowFirstArc centerX centerY (part001OuterRadius width height) ++
        narrowSecondArc centerX centerY (part001InnerRadius width height))
  else
    (centerX, centerY) :: standardArc centerX centerY (part001Radius width height)

/-- Derived positions of part_001 (lines 252-255): `null` when the measured
width or height is exactly zero, otherwise `calculatePositions`. -/
noncomputable def part001PositionsMemo (width height : ℝ) : Option (List (ℝ × ℝ)) :=
  if width = 0 ∨ height = 0 then none
  else some (part001CalculatePositions width height)

/-- Centre point of `GraphNav.tsx` (lines 81-85): `(max(0, w)/2, max(0, h)/2)`. -/
noncomputable def graphNavCenter (w h : ℝ) : ℝ × ℝ :=
  (max 0 w / 2, max 0 h / 2)

/-- Radius of `GraphNav.tsx` (lines 86-92):
`max(120, min(cx, cy) − max(NODE_DIAM, HOME_DIAM)·0.7 − MARGIN)` — clamped
below only. -/
noncomputable def graphNavRadius (w h : ℝ) : ℝ :=
  max 120 (min (max 0 w / 2) (max 0 h / 2) - max NODE_DIAM HOME_DIAM * 0.7 - MARGIN)

/-- Satellite positions of `GraphNav.tsx` (lines 100-109): the five non-home
nodes at angles `(i/5)·2π − π/2`. -/
noncomputable def graphNavPositions (w h : ℝ) : List (ℝ × ℝ) :=
  let cx := (graphNavCenter w h).1
  let cy := (graphNavCenter w h).2
  let radius := graphNavRadius w h
  (List.range 5).map fun (i : ℕ) =>
    let angle := (i : ℝ) / 5 * Real.pi * 2 - Real.pi / 2
    (cx + radius * Real.cos angle, cy + radius * Real.sin angle)

/-- A drawn edge. The second field is named `end` in the source (a reserved
word here). -/
structure Edge where
  start : ℝ × ℝ
  endPt : ℝ × ℝ

/-- Squared Euclidean distance between two points. -/
noncomputable def dist2 (a b : ℝ × ℝ) : ℝ :=
  (a.1 - b.1) ^ 2 + (a.2 - b.2) ^ 2

/-- `computeTrimmedEdge` of `src/unnamed/part_001` (lines 100-132): normalise
the direction vector and move each endpoint in by the node radius plus a
padding (the source's default padding is 2, and both call sites use the
default). A zero-length direction degrades to the untrimmed segment. -/
noncomputable def computeTrimmedEdge
    (centerX centerY nodeX nodeY centerRadius nodeRadius padding : ℝ) : Edge :=
  let dx := nodeX - centerX
  let dy := nodeY - centerY
  let length := Real.sqrt (dx * dx + dy * dy)
  if length = 0 then
    { start := (centerX, centerY), endPt := (nodeX, nodeY) }
  else
    let ux := dx / length
    let uy := dy / length
    { start := (centerX + ux * (centerRadius + padding),
                centerY + uy * (centerRadius + padding)),
      endPt := (nodeX - ux * (nodeRadius + padding),
                nodeY - uy * (nodeRadius + padding)) }

/-- Trimmed edge of `GraphNav.tsx` (lines 112-131): padding 4, node radii
`HOME_DIAM/2` and `NODE_DIAM/2`, and `length = Math.hypot(dx, dy) || 1`. -/
noncomputable def graphNavEdge (cx cy x y : ℝ) : Edge :=
  let homeR := HOME_DIAM / 2
  let nodeR := NODE_DIAM / 2
  let dx := x - cx
  let dy := y - cy
  let hyp := Real.sqrt (dx * dx + dy * dy)
  let length := if hyp = 0 then 1 else hyp
  let ux := dx / length
  let uy := dy / length
  { start := (cx + ux * (homeR + 4), cy + uy * (homeR + 4)),
    endPt := (x - ux * (nodeR + 4), y - uy * (nodeR + 4)) }

/-- `renderEdges` of `src/unnamed/part_000` (lines 131-156): nothing when
fewer than two positions exist, otherwise one line per satellite drawn
directly between the node centres — no trimming at all. -/
def part000RenderEdges (ps : List (ℝ × ℝ)) : List Edge :=
  if ps.length < 2 then []
  else
    match ps with
    | [] => []
    | c :: rest => rest.map fun n => { start := c, endPt := n }

/-! ### Claim C4 — keyboard activation versus pointer click -/

/-- C4, counterexample. In the first `GraphNav.tsx` variant, clicking the
`about` satellite (measured button centre `(10, 20)`, layout centre
`(400, 300)`, motion not reduced) and pressing Enter on it produce different
results: the click bypasses `activate`, skips the blur, and records the
measured position as the expansion origin, while the keyboard path records
the layout centre. -/
theorem C4_counterexample :
    clickSatellite 400 300 false v1Init "about" (some (10, 20)) ≠
      keydownSatellite 400 300 false v1Init "about" "Enter" := by
  decide

/-- C4 (amended): keyboard activation (Enter or Space) coincides with a
pointer click for the home node in the first variant and for satellites in
the third (modal) variant; for satellites of the first variant the two paths
agree on the resulting state only when the measured button centre equals the
layout centre and motion is not reduced (and even then the click emits no
blur effect). -/
theorem C4_amended :
    (∀ (cx cy : ℚ) (reduced : Bool) (s : V1State),
        keydownHome cx cy reduced s "Enter" = clickHome cx cy reduced s ∧
        keydownHome cx cy reduced s " " = clickHome cx cy reduced s) ∧
    (∀ (s : V3State) (nodeId : String),
        keydownSatelliteV3 s nodeId "Enter" = clickSatelliteV3 s nodeId ∧
        keydownSatelliteV3 s nodeId " " = clickSatelliteV3 s nodeId) ∧
    (∀ (cx cy : ℚ) (s : V1State) (nodeId : String), nodeId ≠ "home" →
        (clickSatellite cx cy false s nodeId (some (cx, cy))).1 =
          (keydownSatellite cx cy false s nodeId "Enter").1) := by
  refine ⟨fun cx cy reduced s => ⟨?_, ?_⟩, fun s nodeId => ⟨?_, ?_⟩,
    fun cx cy s nodeId hne => ?_⟩
  · simp [keydownHome, clickHome]
  · simp [keydownHome, clickHome]
  · simp [keydownSatelliteV3, clickSatelliteV3]
  · simp [keydownSatelliteV3, clickSatelliteV3]
  · simp [clickSatellite, keydownSatellite, activate, hne, startSphereExpansion]

/-- C4, witness for the amended theorem at a concrete input. -/
theorem C4_witness :
    ("about" ≠ "home") ∧
    (clickSatellite 400 300 false v1Init "about" (some (400, 300))).1 =
      (keydownSatellite 400 300 false v1Init "about" "Enter").1 :=
  ⟨by decide, C4_amended.2.2 400 300 v1Init "about" (by decide)⟩

/-! ### Claim C9 — re-activating the centre while content is revealed -/

/-- C9. In the third `GraphNav.tsx` variant, activating the home node while
the modal is open (`isModalOpen = true`, `selectedNode = about`) does not
close the modal: the close guard reads an identifier that this variant never
declares, so the handler instead bumps the spin key and schedules `onSelect`
after `SPIN_MS`, leaving the modal open. -/
theorem C9_third_variant_home_leaves_modal_open :
    activateV3 400 300 false ⟨0, true, some "about"⟩ "home" =
      (⟨1, true, some "about"⟩,
        [UIEffect.blurActive, UIEffect.select "home" (400, 300) SPIN_MS]) := by
  decide

/-! ### Claim C10 — reduced motion skips the timed spin -/

/-- C10. Under reduced motion, activating the home node from a state with no
content shown leaves the state untouched (in particular the spin key — there
is no intervening timed `Activating` state) and invokes `onSelect`
synchronously (delay 0 instead of `SPIN_MS`). -/
theorem C10_reduced_motion_center_immediate (cx cy : ℚ) (s : V1State)
    (hs : s.showContent = false) :
    activate cx cy true s "home" =
      (s, [UIEffect.blurActive, UIEffect.select "home" (cx, cy) 0]) := by
  simp [activate, hs]

/-- C10, witness at the initial state. -/
theorem C10_witness :
    v1Init.showContent = false ∧
    activate 400 300 true v1Init "home" =
      (v1Init, [UIEffect.blurActive, UIEffect.select "home" (400, 300) 0]) :=
  ⟨rfl, C10_reduced_motion_center_immediate 400 300 v1Init rfl⟩

/-! ### Claim C5 — cancellation of scheduled callbacks -/

/-- C5. Trace: the size effect runs, home is activated (scheduling `onSelect`
after `SPIN_MS` with the timer id discarded), the component unmounts (its
cleanups clear the ready and spin timers), and time advances to 7000 ms. The
orphaned `SPIN_MS` timeout still fires and invokes `onSelect` after the
component instance is gone. -/
theorem C5_orphaned_select_timeout_fires_after_unmount :
    (runEvents [UIEvent.runSizeEffect, UIEvent.activateHome, UIEvent.unmount,
        UIEvent.advanceTo 7000]).selectCallsAfterUnmount = [7000] ∧
    (runEvents [UIEvent.runSizeEffect, UIEvent.activateHome, UIEvent.unmount,
        UIEvent.advanceTo 7000]).mounted = false := by
  decide

/-! ### Exact values of the narrow-screen arcs

The narrow-branch angles are multiples of `π/2`, so the five satellite
positions have closed forms. -/

lemma narrowFirstArc_eval (cx cy o : ℝ) :
    narrowFirstArc cx cy o = [(cx + o, cy), (cx, cy + o), (cx - o, cy)] := by
  have h2 : ((2 : ℕ) : ℝ) * Real.pi / 2 = Real.pi := by push_cast; ring
  have h1 : ((1 : ℕ) : ℝ) * Real.pi / 2 = Real.pi / 2 := by push_cast; ring
  have h0 : ((0 : ℕ) : ℝ) * Real.pi / 2 = 0 := by push_cast; ring
  simp only [narrowFirstArc, List.range_succ, List.range_zero, List.nil_append,
    List.cons_append, List.map_cons, List.map_nil, h0, h1, h2,
    Real.cos_zero, Real.sin_zero, Real.cos_pi_div_two, Real.sin_pi_div_two,
    Real.cos_pi, Real.sin_pi]
  norm_num [sub_eq_add_neg]

lemma narrowSecondArc_eval (cx cy i : ℝ) :
    narrowSecondArc cx cy i = [(cx, cy - i), (cx + i, cy)] := by
  have h0 : (((0 : ℕ) : ℝ) + 1) * Real.pi / 2 + Real.pi = Real.pi / 2 + Real.pi := by
    push_cast; ring
  have h1 : (((1 : ℕ) : ℝ) + 1) * Real.pi / 2 + Real.pi = Real.pi + Real.pi := by
    push_cast; ring
  simp only [narrowSecondArc, List.range_succ, List.range_zero, List.nil_append,
    List.cons_append, List.map_cons, List.map_nil, h0, h1,
    Real.cos_add_pi, Real.sin_add_pi, Real.cos_pi_div_two, Real.sin_pi_div_two,
    Real.cos_pi, Real.sin_pi]
  norm_num [sub_eq_add_neg]

/-! ### Claim C1 — radius clamping -/

/-- C1, counterexample. The `GraphNav.tsx` radius has no upper clamp: at a
10000×10000 container it already exceeds 420 (the largest `RADIUS_MAX`
observed anywhere in the repository). -/
theorem C1_counterexample : 420 < graphNavRadius 10000 10000 := by
  unfold graphNavRadius NODE_DIAM HOME_DIAM MARGIN
  rw [max_eq_right (by norm_num : (0 : ℝ) ≤ 10000), min_self,
    max_eq_right (by norm_num : (88 : ℝ) ≤ 104)]
  rw [lt_max_iff]
  right
  norm_num

/-- C1 (amended): the two `calculatePositions` variants clamp the satellite
radius at both ends (`[140, 320]` in part_000, `[180, 420]` in part_001) for
all container sizes; the `GraphNav.tsx` radius is clamped below at 120 but is
unbounded above. -/
theorem C1_amended :
    (∀ w h : ℝ, 140 ≤ part000Radius w h ∧ part000Radius w h ≤ 320) ∧
    (∀ w h : ℝ, 180 ≤ part001Radius w h ∧ part001Radius w h ≤ 420) ∧
    (∀ w h : ℝ, 120 ≤ graphNavRadius w h) ∧
    (∀ M : ℝ, ∃ w h : ℝ, M < graphNavRadius w h) := by
  refine ⟨fun w h => ⟨le_max_left _ _, max_le (by norm_num) (min_le_left _ _)⟩,
    fun w h => ⟨le_max_left _ _, max_le (by norm_num) (min_le_left _ _)⟩,
    fun w h => le_max_left _ _, fun M => ?_⟩
  refine ⟨2 * |M| + 2000, 2 * |M| + 2000, ?_⟩
  unfold graphNavRadius NODE_DIAM HOME_DIAM MARGIN
  rw [max_eq_right (by positivity : (0 : ℝ) ≤ 2 * |M| + 2000), min_self,
    max_eq_right (by norm_num : (88 : ℝ) ≤ 104)]
  refine lt_of_lt_of_le ?_ (le_max_right _ _)
  nlinarith [le_abs_self M, abs_nonneg M]

/-! ### Claim C8 — degenerate container size -/

/-- C8, counterexample. At measured size 0×0 the part_000 update path still
stores `calculatePositions(0, 0)` (six positions), and the `GraphNav.tsx`
layout still produces its five satellite positions; neither suppresses the
output. -/
theorem C8_counterexample :
    (part000CalculatePositions 0 0).length = 6 ∧
    (graphNavPositions 0 0).length = 5 := by
  constructor
  · simp [part000CalculatePositions, narrowFirstArc_eval, narrowSecondArc_eval,
      show (0 : ℝ) < 380 from by norm_num]
  · simp only [graphNavPositions]
    rw [List.length_map, List.length_range]

/-- C8 (amended): only the part_001 variant suppresses layout output on a
degenerate measurement — its derived positions are `none` whenever the width
or height is zero and are the computed list otherwise; the part_000 variant
computes six positions even at size 0×0. -/
theorem C8_amended :
    (∀ h : ℝ, part001PositionsMemo 0 h = none) ∧
    (∀ w : ℝ, part001PositionsMemo w 0 = none) ∧
    (∀ w h : ℝ, w ≠ 0 → h ≠ 0 →
        part001PositionsMemo w h = some (part001CalculatePositions w h)) ∧
    (part000CalculatePositions 0 0).length = 6 := by
  refine ⟨fun h => ?_, fun w => ?_, fun w h hw hh => ?_, ?_⟩
  · simp [part001PositionsMemo]
  · simp [part001PositionsMemo]
  · simp [part001PositionsMemo, hw, hh]
  · simp [part000CalculatePositions, narrowFirstArc_eval, narrowSecondArc_eval,
      show (0 : ℝ) < 380 from by norm_num]

/-- C8, witness for the amended theorem at a concrete nonzero size. -/
theorem C8_witness :
    (5 : ℝ) ≠ 0 ∧
    part001PositionsMemo 5 5 = some (part001CalculatePositions 5 5) :=
  ⟨by norm_num, C8_amended.2.2.1 5 5 (by norm_num) (by norm_num)⟩

/-! ### Claim C6 — shape of the layout output -/

/-- C6. For any container with positive width and height, both
`calculatePositions` variants return exactly six positions with the centre
`(w/2, h/2)` at index 0, and the `GraphNav.tsx` layout returns its five
satellite positions around the centre `(w/2, h/2)`. (In the exact-real model
every coordinate is a well-defined finite real.) -/
theorem C6_layout_shape (w h : ℝ) (hw : 0 < w) (hh : 0 < h) :
    (part000CalculatePositions w h).length = 6 ∧
    (part000CalculatePositions w h)[0]? = some (w / 2, h / 2) ∧
    (part001CalculatePositions w h).length = 6 ∧
    (part001CalculatePositions w h)[0]? = some (w / 2, h / 2) ∧
    (graphNavPositions w h).length = 5 ∧
    graphNavCenter w h = (w / 2, h / 2) := by
  have hcw : max 0 w = w := max_eq_right hw.le
  have hch : max 0 h = h := max_eq_right hh.le
  by_cases h380 : w < 380 <;>
    simp [part000CalculatePositions, part001CalculatePositions, graphNavPositions,
      graphNavCenter, narrowFirstArc_eval, narrowSecondArc_eval, standardArc,
      h380, hcw, hch]

/-- C6, witness at an 800×600 container. -/
theorem C6_witness :
    ((0 : ℝ) < 800) ∧ ((0 : ℝ) < 600) ∧
    ((part000CalculatePositions 800 600).length = 6 ∧
      (part000CalculatePositions 800 600)[0]? = some (800 / 2, 600 / 2) ∧
      (part001CalculatePositions 800 600).length = 6 ∧
      (part001CalculatePositions 800 600)[0]? = some (800 / 2, 600 / 2) ∧
      (graphNavPositions 800 600).length = 5 ∧
      graphNavCenter 800 600 = (800 / 2, 600 / 2)) :=
  ⟨by norm_num, by norm_num, C6_layout_shape 800 600 (by norm_num) (by norm_num)⟩

/-! ### Claim C3 — narrow-screen branch -/

lemma part000Radius_300 : part000Radius 300 300 = 140 := by
  norm_num [part000Radius, min_def, max_def]

lemma part000Outer_300 : part000OuterRadius 300 300 = 120 := by
  norm_num [part000OuterRadius, part000Radius_300, min_def, max_def]

lemma part000Inner_300 : part000InnerRadius 300 300 = 120 := by
  norm_num [part000InnerRadius, part000Radius_300, min_def, max_def]

lemma part001Radius_300 : part001Radius 300 300 = 180 := by
  norm_num [part001Radius, min_def, max_def]

lemma part001Outer_300 : part001OuterRadius 300 300 = 150 := by
  norm_num [part001OuterRadius, part001Radius_300, min_def, max_def]

lemma part001Inner_300 : part001InnerRadius 300 300 = 150 := by
  norm_num [part001InnerRadius, part001Radius_300, min_def, max_def]

/-- C3, counterexample. At a 300×300 container (width below the 380 threshold)
the outer and inner arc radii coincide (120 in part_000, 150 in part_001), so
the first satellite (angle 0) and the fifth satellite (angle 2π) land on
exactly the same point: positions 1 and 5 are coincident in both variants. -/
theorem C3_counterexample :
    ((300 : ℝ) < 380) ∧
    (part000CalculatePositions 300 300)[1]? = some (270, 150) ∧
    (part000CalculatePositions 300 300)[5]? = some (270, 150) ∧
    (part001CalculatePositions 300 300)[1]? = some (300, 150) ∧
    (part001CalculatePositions 300 300)[5]? = some (300, 150) := by
  refine ⟨by norm_num, ?_, ?_, ?_, ?_⟩ <;>
    simp [part000CalculatePositions, part001CalculatePositions,
      part000Outer_300, part000Inner_300, part001Outer_300, part001Inner_300,
      narrowFirstArc_eval, narrowSecondArc_eval,
      show (300 : ℝ) < 380 from by norm_num] <;>
    norm_num

/-- Shape of the narrow-screen branch shared by both `calculatePositions`
variants: centre followed by the two arcs with outer radius `o` and inner
radius `i`. With both radii positive the five satellites avoid the centre,
and with `o ≠ i` they are pairwise distinct. -/
lemma narrow_branch_shape (cx cy o i : ℝ) (ho : 0 < o) (hi : 0 < i) (hoi : o ≠ i) :
    ((cx, cy) :: (narrowFirstArc cx cy o ++ narrowSecondArc cx cy i)).length = 6 ∧
    (∀ p ∈ ((cx, cy) :: (narrowFirstArc cx cy o ++ narrowSecondArc cx cy i)).tail,
        p ≠ (cx, cy)) ∧
    ((cx, cy) :: (narrowFirstArc cx cy o ++ narrowSecondArc cx cy i)).tail.Nodup := by
  rw [narrowFirstArc_eval, narrowSecondArc_eval]
  simp only [List.cons_append, List.nil_append]
  refine ⟨by simp, ?_, ?_⟩
  · simp only [List.tail_cons, List.mem_cons, List.mem_singleton, List.not_mem_nil,
      or_false]
    rintro p (rfl | rfl | rfl | rfl | rfl) <;>
      (intro heq; rw [Prod.mk.injEq] at heq; obtain ⟨h1, h2⟩ := heq) <;>
      linarith
  · simp only [List.tail_cons]
    refine List.Nodup.cons ?_ (List.Nodup.cons ?_ (List.Nodup.cons ?_
      (List.Nodup.cons ?_ (List.nodup_singleton _))))
    all_goals simp only [List.mem_cons, List.mem_singleton, List.not_mem_nil, or_false]
    all_goals push_neg
    all_goals repeat' apply And.intro
    all_goals intro heq
    all_goals rw [Prod.mk.injEq] at heq
    all_goals obtain ⟨h1, h2⟩ := heq
    all_goals first
      | linarith
      | exact hoi (by linarith)

/-- C3 (amended): in the narrow-screen branch both `calculatePositions`
variants place exactly five satellites on the two arcs, none of them
coincident with the centre; in each variant the satellites are pairwise
distinct provided that variant's outer and inner arc radii differ (when the
radii coincide — e.g. at 300×300 — satellites 1 and 5 coincide). -/
theorem C3_amended (w h : ℝ) (hw : 0 < w) (hh : 0 < h) (h380 : w < 380)
    (hoi0 : part000OuterRadius w h ≠ part000InnerRadius w h)
    (hoi1 : part001OuterRadius w h ≠ part001InnerRadius w h) :
    ((part000CalculatePositions w h).length = 6 ∧
      (∀ p ∈ (part000CalculatePositions w h).tail, p ≠ (w / 2, h / 2)) ∧
      (part000CalculatePositions w h).tail.Nodup) ∧
    ((part001CalculatePositions w h).length = 6 ∧
      (∀ p ∈ (part001CalculatePositions w h).tail, p ≠ (w / 2, h / 2)) ∧
      (part001CalculatePositions w h).tail.Nodup) := by
  have hmin : (0 : ℝ) < min w h := lt_min hw hh
  have hrad0 : (140 : ℝ) ≤ part000Radius w h := le_max_left _ _
  have ho0 : 0 < part000OuterRadius w h := by
    unfold part000OuterRadius
    exact lt_min (by linarith) (by nlinarith)
  have hi0 : (0 : ℝ) < part000InnerRadius w h := by
    unfold part000InnerRadius
    exact lt_of_lt_of_le (by norm_num) (le_max_right _ _)
  have hrad1 : (180 : ℝ) ≤ part001Radius w h := le_max_left _ _
  have ho1 : 0 < part001OuterRadius w h := by
    unfold part001OuterRadius
    exact lt_min (by linarith) (by nlinarith)
  have hi1 : (0 : ℝ) < part001InnerRadius w h := by
    unfold part001InnerRadius
    exact lt_of_lt_of_le (by norm_num) (le_max_right _ _)
  have h0 : part000CalculatePositions w h =
      (w / 2, h / 2) :: (narrowFirstArc (w / 2) (h / 2) (part000OuterRadius w h) ++
        narrowSecondArc (w / 2) (h / 2) (part000InnerRadius w h)) := by
    simp [part000CalculatePositions, h380]
  have h1 : part001CalculatePositions w h =
      (w / 2, h / 2) :: (narrowFirstArc (w / 2) (h / 2) (part001OuterRadius w h) ++
        narrowSecondArc (w / 2) (h / 2) (part001InnerRadius w h)) := by
    simp [part001CalculatePositions, h380]
  rw [h0, h1]
  exact ⟨narrow_branch_shape _ _ _ _ ho0 hi0 hoi0,
    narrow_branch_shape _ _ _ _ ho1 hi1 hoi1⟩

lemma part000Radius_100 : part000Radius 100 100 = 140 := by
  norm_num [part000Radius, min_def, max_def]

lemma part000Outer_100 : part000OuterRadius 100 100 = 40 := by
  norm_num [part000OuterRadius, part000Radius_100, min_def, max_def]

lemma part000Inner_100 : part000InnerRadius 100 100 = 120 := by
  norm_num [part000InnerRadius, part000Radius_100, min_def, max_def]

lemma part001Radius_100 : part001Radius 100 100 = 180 := by
  norm_num [part001Radius, min_def, max_def]

lemma part001Outer_100 : part001OuterRadius 100 100 = 50 := by
  norm_num [part001OuterRadius, part001Radius_100, min_def, max_def]

lemma part001Inner_100 : part001InnerRadius 100 100 = 150 := by
  norm_num [part001InnerRadius, part001Radius_100, min_def, max_def]

/-- C3, witness for the amended theorem at a 100×100 container, where the
outer and inner radii differ in both variants (40 vs 120 in part_000,
50 vs 150 in part_001). -/
theorem C3_witness :
    ((0 : ℝ) < 100) ∧ ((100 : ℝ) < 380) ∧
    part000OuterRadius 100 100 ≠ part000InnerRadius 100 100 ∧
    part001OuterRadius 100 100 ≠ part001InnerRadius 100 100 ∧
    (((part000CalculatePositions 100 100).length = 6 ∧
        (∀ p ∈ (part000CalculatePositions 100 100).tail, p ≠ (100 / 2, 100 / 2)) ∧
        (part000CalculatePositions 100 100).tail.Nodup) ∧
      ((part001CalculatePositions 100 100).length = 6 ∧
        (∀ p ∈ (part001CalculatePositions 100 100).tail, p ≠ (100 / 2, 100 / 2)) ∧
        (part001CalculatePositions 100 100).tail.Nodup)) :=
  ⟨by norm_num, by norm_num,
    by rw [part000Outer_100, part000Inner_100]; norm_num,
    by rw [part001Outer_100, part001Inner_100]; norm_num,
    C3_amended 100 100 (by norm_num) (by norm_num) (by norm_num)
      (by rw [part000Outer_100, part000Inner_100]; norm_num)
      (by rw [part001Outer_100, part001Inner_100]; norm_num)⟩

/-! ### Edge-trimming algebra -/

lemma sum_sq_pos_of_pair_ne {nX nY cX cY : ℝ}
    (hne : ((nX, nY) : ℝ × ℝ) ≠ (cX, cY)) :
    0 < (nX - cX) * (nX - cX) + (nY - cY) * (nY - cY) := by
  have h' : ¬(nX - cX = 0 ∧ nY - cY = 0) := by
    rintro ⟨h1, h2⟩
    apply hne
    rw [Prod.mk.injEq]
    constructor <;> linarith
  have ha : 0 ≤ (nX - cX) * (nX - cX) := mul_self_nonneg _
  have hb : 0 ≤ (nY - cY) * (nY - cY) := mul_self_nonneg _
  by_contra hc
  push_neg at hc
  have h1 : (nX - cX) * (nX - cX) = 0 := le_antisymm (by linarith) ha
  have h2 : (nY - cY) * (nY - cY) = 0 := le_antisymm (by linarith) hb
  exact h' ⟨mul_self_eq_zero.mp h1, mul_self_eq_zero.mp h2⟩

lemma unit_scale_sq (dx dy t L : ℝ) (hL : L ≠ 0) (hL2 : L ^ 2 = dx * dx + dy * dy) :
    (dx / L * t) ^ 2 + (dy / L * t) ^ 2 = t ^ 2 := by
  have e1 : (dx / L * t) ^ 2 + (dy / L * t) ^ 2 = (dx * dx + dy * dy) * (t / L) ^ 2 := by
    ring
  have e2 : L ^ 2 * (t / L) ^ 2 = (L * (t / L)) ^ 2 := by ring
  have e3 : L * (t / L) = t := by field_simp
  rw [e1, ← hL2, e2, e3]

lemma unit_shift_sq (dx dy t L : ℝ) (hL : L ≠ 0) (hL2 : L ^ 2 = dx * dx + dy * dy) :
    (dx - dx / L * t) ^ 2 + (dy - dy / L * t) ^ 2 = (L - t) ^ 2 := by
  have e1 : (dx - dx / L * t) ^ 2 + (dy - dy / L * t) ^ 2 =
      (dx * dx + dy * dy) * (1 - t / L) ^ 2 := by
    ring
  have e2 : L ^ 2 * (1 - t / L) ^ 2 = (L * (1 - t / L)) ^ 2 := by ring
  have e3 : L * (1 - t / L) = L - t := by field_simp
  rw [e1, ← hL2, e2, e3]

lemma div_mul_self_sq (dx dy t : ℝ) (hS : 0 < dx * dx + dy * dy) :
    (dx / Real.sqrt (dx * dx + dy * dy) * t) ^ 2 +
      (dy / Real.sqrt (dx * dx + dy * dy) * t) ^ 2 = t ^ 2 :=
  unit_scale_sq dx dy t _ (ne_of_gt (Real.sqrt_pos.mpr hS)) (Real.sq_sqrt hS.le)

lemma sub_div_mul_self_sq (dx dy t : ℝ) (hS : 0 < dx * dx + dy * dy) :
    (dx - dx / Real.sqrt (dx * dx + dy * dy) * t) ^ 2 +
      (dy - dy / Real.sqrt (dx * dx + dy * dy) * t) ^ 2 =
      (Real.sqrt (dx * dx + dy * dy) - t) ^ 2 :=
  unit_shift_sq dx dy t _ (ne_of_gt (Real.sqrt_pos.mpr hS)) (Real.sq_sqrt hS.le)

/-- For a non-degenerate direction, the trimmed segment's start lies at
squared distance `(centerRadius + padding)²` from the centre. -/
lemma computeTrimmedEdge_start_dist2 (cX cY nX nY cR nR p : ℝ)
    (hne : ((nX, nY) : ℝ × ℝ) ≠ (cX, cY)) :
    dist2 (computeTrimmedEdge cX cY nX nY cR nR p).start (cX, cY) = (cR + p) ^ 2 := by
  have hS := sum_sq_pos_of_pair_ne hne
  have hLne : Real.sqrt ((nX - cX) * (nX - cX) + (nY - cY) * (nY - cY)) ≠ 0 :=
    ne_of_gt (Real.sqrt_pos.mpr hS)
  simp only [computeTrimmedEdge]
  rw [if_neg hLne]
  simp only [dist2]
  have e1 : cX + (nX - cX) / Real.sqrt ((nX - cX) * (nX - cX) + (nY - cY) * (nY - cY)) *
      (cR + p) - cX =
      (nX - cX) / Real.sqrt ((nX - cX) * (nX - cX) + (nY - cY) * (nY - cY)) * (cR + p) := by
    ring
  have e2 : cY + (nY - cY) / Real.sqrt ((nX - cX) * (nX - cX) + (nY - cY) * (nY - cY)) *
      (cR + p) - cY =
      (nY - cY) / Real.sqrt ((nX - cX) * (nX - cX) + (nY - cY) * (nY - cY)) * (cR + p) := by
    ring
  rw [e1, e2]
  exact div_mul_self_sq _ _ _ hS

/-- For a non-degenerate direction, the trimmed segment's end lies at squared
distance `(nodeRadius + padding)²` from the node. -/
lemma computeTrimmedEdge_endPt_node_dist2 (cX cY nX nY cR nR p : ℝ)
    (hne : ((nX, nY) : ℝ × ℝ) ≠ (cX, cY)) :
    dist2 (computeTrimmedEdge cX cY nX nY cR nR p).endPt (nX, nY) = (nR + p) ^ 2 := by
  have hS := sum_sq_pos_of_pair_ne hne
  have hLne : Real.sqrt ((nX - cX) * (nX - cX) + (nY - cY) * (nY - cY)) ≠ 0 :=
    ne_of_gt (Real.sqrt_pos.mpr hS)
  simp only [computeTrimmedEdge]
  rw [if_neg hLne]
  simp only [dist2]
  have e1 : nX - (nX - cX) / Real.sqrt ((nX - cX) * (nX - cX) + (nY - cY) * (nY - cY)) *
      (nR + p) - nX =
      -((nX - cX) / Real.sqrt ((nX - cX) * (nX - cX) + (nY - cY) * (nY - cY)) * (nR + p)) := by
    ring
  have e2 : nY - (nY - cY) / Real.sqrt ((nX - cX) * (nX - cX) + (nY - cY) * (nY - cY)) *
      (nR + p) - nY =
      -((nY - cY) / Real.sqrt ((nX - cX) * (nX - cX) + (nY - cY) * (nY - cY)) * (nR + p)) := by
    ring
  rw [e1, e2, neg_sq, neg_sq]
  exact div_mul_self_sq _ _ _ hS

/-- For a non-degenerate direction, the trimmed segment's end lies at squared
distance `(L − (nodeRadius + padding))²` from the centre, `L` the
centre-to-node distance. -/
lemma computeTrimmedEdge_endPt_center_dist2 (cX cY nX nY cR nR p : ℝ)
    (hne : ((nX, nY) : ℝ × ℝ) ≠ (cX, cY)) :
    dist2 (computeTrimmedEdge cX cY nX nY cR nR p).endPt (cX, cY) =
      (Real.sqrt ((nX - cX) * (nX - cX) + (nY - cY) * (nY - cY)) - (nR + p)) ^ 2 := by
  have hS := sum_sq_pos_of_pair_ne hne
  have hLne : Real.sqrt ((nX - cX) * (nX - cX) + (nY - cY) * (nY - cY)) ≠ 0 :=
    ne_of_gt (Real.sqrt_pos.mpr hS)
  simp only [computeTrimmedEdge]
  rw [if_neg hLne]
  simp only [dist2]
  have e1 : nX - (nX - cX) / Real.sqrt ((nX - cX) * (nX - cX) + (nY - cY) * (nY - cY)) *
      (nR + p) - cX =
      (nX - cX) - (nX - cX) / Real.sqrt ((nX - cX) * (nX - cX) + (nY - cY) * (nY - cY)) *
        (nR + p) := by
    ring
  have e2 : nY - (nY - cY) / Real.sqrt ((nX - cX) * (nX - cX) + (nY - cY) * (nY - cY)) *
      (nR + p) - cY =
      (nY - cY) - (nY - cY) / Real.sqrt ((nX - cX) * (nX - cX) + (nY - cY) * (nY - cY)) *
        (nR + p) := by
    ring
  rw [e1, e2]
  exact sub_div_mul_self_sq _ _ _ hS

/-! ### Claim C2 — trimmed start closer to the centre than the end -/

/-- C2, counterexample. With the centre at the origin, the node at `(1, 0)`
(non-degenerate direction), centre radius 52, node radius 44 and the default
padding 2, the trimmed start is at `(54, 0)` but the end crosses over to
`(-45, 0)`: the end is strictly closer to the centre than the start. -/
theorem C2_counterexample :
    (((1 : ℝ), (0 : ℝ)) ≠ ((0 : ℝ), (0 : ℝ))) ∧
    dist2 (computeTrimmedEdge 0 0 1 0 52 44 2).endPt (0, 0) <
      dist2 (computeTrimmedEdge 0 0 1 0 52 44 2).start (0, 0) := by
  constructor
  · simp
  · have h1 : Real.sqrt ((1 - 0) * (1 - 0) + (0 - 0) * (0 - 0)) = 1 := by
      norm_num
    simp only [computeTrimmedEdge, h1]
    rw [if_neg one_ne_zero]
    simp only [dist2]
    norm_num

/-- C2 (amended): whenever the centre-to-node distance exceeds
`centerRadius + nodeRadius + 2·padding` (with nonnegative radii and padding),
the trimmed start is strictly closer to the centre than the trimmed end. -/
theorem C2_amended (centerX centerY nodeX nodeY centerRadius nodeRadius padding : ℝ)
    (hc : 0 ≤ centerRadius) (hn : 0 ≤ nodeRadius) (hp : 0 ≤ padding)
    (hfar : (centerRadius + nodeRadius + 2 * padding) ^ 2 <
      (nodeX - centerX) * (nodeX - centerX) + (nodeY - centerY) * (nodeY - centerY)) :
    dist2 (computeTrimmedEdge centerX centerY nodeX nodeY centerRadius nodeRadius
        padding).start (centerX, centerY) <
      dist2 (computeTrimmedEdge centerX centerY nodeX nodeY centerRadius nodeRadius
        padding).endPt (centerX, centerY) := by
  have hS : 0 < (nodeX - centerX) * (nodeX - centerX) +
      (nodeY - centerY) * (nodeY - centerY) := lt_of_le_of_lt (sq_nonneg _) hfar
  have hne : ((nodeX, nodeY) : ℝ × ℝ) ≠ (centerX, centerY) := by
    intro hEq
    rw [Prod.mk.injEq] at hEq
    obtain ⟨h1, h2⟩ := hEq
    rw [h1, h2] at hS
    simp at hS
  rw [computeTrimmedEdge_start_dist2 _ _ _ _ _ _ _ hne,
    computeTrimmedEdge_endPt_center_dist2 _ _ _ _ _ _ _ hne]
  have hLpos : 0 < Real.sqrt ((nodeX - centerX) * (nodeX - centerX) +
      (nodeY - centerY) * (nodeY - centerY)) := Real.sqrt_pos.mpr hS
  have hL2 : Real.sqrt ((nodeX - centerX) * (nodeX - centerX) +
        (nodeY - centerY) * (nodeY - centerY)) *
      Real.sqrt ((nodeX - centerX) * (nodeX - centerX) +
        (nodeY - centerY) * (nodeY - centerY)) =
      (nodeX - centerX) * (nodeX - centerX) + (nodeY - centerY) * (nodeY - centerY) :=
    Real.mul_self_sqrt hS.le
  have hsum : centerRadius + nodeRadius + 2 * padding <
      Real.sqrt ((nodeX - centerX) * (nodeX - centerX) +
        (nodeY - centerY) * (nodeY - centerY)) := by
    nlinarith [hL2, hLpos]
  have hab : centerRadius + padding <
      Real.sqrt ((nodeX - centerX) * (nodeX - centerX) +
        (nodeY - centerY) * (nodeY - centerY)) - (nodeRadius + padding) := by
    linarith
  nlinarith [hab, hc, hp]

/-- C2, witness for the amended theorem: centre `(0,0)`, node `(200, 0)`,
radii 52 and 44, padding 2. -/
theorem C2_witness :
    ((0 : ℝ) ≤ 52) ∧ ((0 : ℝ) ≤ 44) ∧ ((0 : ℝ) ≤ 2) ∧
    (((52 : ℝ) + 44 + 2 * 2) ^ 2 <
      ((200 : ℝ) - 0) * ((200 : ℝ) - 0) + ((0 : ℝ) - 0) * ((0 : ℝ) - 0)) ∧
    dist2 (computeTrimmedEdge 0 0 200 0 52 44 2).start (0, 0) <
      dist2 (computeTrimmedEdge 0 0 200 0 52 44 2).endPt (0, 0) :=
  ⟨by norm_num, by norm_num, by norm_num, by norm_num,
    C2_amended 0 0 200 0 52 44 2 (by norm_num) (by norm_num) (by norm_num)
      (by norm_num)⟩

/-! ### Claim C7 — edges trimmed to the node boundaries -/

/-- C7, counterexample. The part_000 edge renderer emits the untrimmed
segment joining the two node centres: its start IS the centre position
(squared distance 0 from the centre, below the `(0 + 2)² = 4` that even the
smallest claimed centre-radius-plus-padding offset would require). -/
theorem C7_counterexample :
    part000RenderEdges [((400 : ℝ), (300 : ℝ)), ((640 : ℝ), (300 : ℝ))] =
      [⟨((400 : ℝ), (300 : ℝ)), ((640 : ℝ), (300 : ℝ))⟩] ∧
    dist2 ((400 : ℝ), (300 : ℝ)) ((400 : ℝ), (300 : ℝ)) < 2 ^ 2 := by
  constructor
  · simp [part000RenderEdges]
  · norm_num [dist2]

/-- C7 (amended): the `GraphNav.tsx` edge renderer trims each segment to start
at squared distance `(HOME_DIAM/2 + 4)²` from the centre and end at squared
distance `(NODE_DIAM/2 + 4)²` from the satellite (padding 4), and the
part_001 renderer does the same with padding 2; the part_000 renderer instead
joins the node centres directly, untrimmed. -/
theorem C7_amended :
    (∀ cx cy x y : ℝ, ((x, y) : ℝ × ℝ) ≠ (cx, cy) →
        dist2 (graphNavEdge cx cy x y).start (cx, cy) = (HOME_DIAM / 2 + 4) ^ 2 ∧
        dist2 (graphNavEdge cx cy x y).endPt (x, y) = (NODE_DIAM / 2 + 4) ^ 2) ∧
    (∀ cX cY nX nY cR nR : ℝ, ((nX, nY) : ℝ × ℝ) ≠ (cX, cY) →
        dist2 (computeTrimmedEdge cX cY nX nY cR nR 2).start (cX, cY) = (cR + 2) ^ 2 ∧
        dist2 (computeTrimmedEdge cX cY nX nY cR nR 2).endPt (nX, nY) = (nR + 2) ^ 2) ∧
    (∀ (c : ℝ × ℝ) (rest : List (ℝ × ℝ)), rest ≠ [] →
        part000RenderEdges (c :: rest) = rest.map fun n => { start := c, endPt := n }) := by
  refine ⟨fun cx cy x y hne => ?_, fun cX cY nX nY cR nR hne =>
    ⟨computeTrimmedEdge_start_dist2 _ _ _ _ _ _ _ hne,
      computeTrimmedEdge_endPt_node_dist2 _ _ _ _ _ _ _ hne⟩,
    fun c rest hrest => ?_⟩
  · have hS := sum_sq_pos_of_pair_ne hne
    have hLne : Real.sqrt ((x - cx) * (x - cx) + (y - cy) * (y - cy)) ≠ 0 :=
      ne_of_gt (Real.sqrt_pos.mpr hS)
    constructor
    · simp only [graphNavEdge]
      rw [if_neg hLne]
      simp only [dist2]
      have e1 : cx + (x - cx) / Real.sqrt ((x - cx) * (x - cx) + (y - cy) * (y - cy)) *
          (HOME_DIAM / 2 + 4) - cx =
          (x - cx) / Real.sqrt ((x - cx) * (x - cx) + (y - cy) * (y - cy)) *
            (HOME_DIAM / 2 + 4) := by
        ring
      have e2 : cy + (y - cy) / Real.sqrt ((x - cx) * (x - cx) + (y - cy) * (y - cy)) *
          (HOME_DIAM / 2 + 4) - cy =
          (y - cy) / Real.sqrt ((x - cx) * (x - cx) + (y - cy) * (y - cy)) *
            (HOME_DIAM / 2 + 4) := by
        ring
      rw [e1, e2]
      exact div_mul_self_sq _ _ _ hS
    · simp only [graphNavEdge]
      rw [if_neg hLne]
      simp only [dist2]
      have e1 : x - (x - cx) / Real.sqrt ((x - cx) * (x - cx) + (y - cy) * (y - cy)) *
          (NODE_DIAM / 2 + 4) - x =
          -((x - cx) / Real.sqrt ((x - cx) * (x - cx) + (y - cy) * (y - cy)) *
            (NODE_DIAM / 2 + 4)) := by
        ring
      have e2 : y - (y - cy) / Real.sqrt ((x - cx) * (x - cx) + (y - cy) * (y - cy)) *
          (NODE_DIAM / 2 + 4) - y =
          -((y - cy) / Real.sqrt ((x - cx) * (x - cx) + (y - cy) * (y - cy)) *
            (NODE_DIAM / 2 + 4)) := by
        ring
      rw [e1, e2, neg_sq, neg_sq]
      exact div_mul_self_sq _ _ _ hS
  · cases rest with
    | nil => exact absurd rfl hrest
    | cons a l =>
      have hlen : ¬((c :: a :: l : List (ℝ × ℝ)).length < 2) := by
        simp only [List.length_cons]
        omega
      unfold part000RenderEdges
      rw [if_neg hlen]

/-- C7, witness for the amended theorem at concrete inputs. -/
theorem C7_witness :
    (((3 : ℝ), (4 : ℝ)) ≠ ((0 : ℝ), (0 : ℝ))) ∧
    (dist2 (graphNavEdge 0 0 3 4).start (0, 0) = (HOME_DIAM / 2 + 4) ^ 2 ∧
      dist2 (graphNavEdge 0 0 3 4).endPt (3, 4) = (NODE_DIAM / 2 + 4) ^ 2) ∧
    (dist2 (computeTrimmedEdge 0 0 3 4 52 44 2).start (0, 0) = ((52 : ℝ) + 2) ^ 2 ∧
      dist2 (computeTrimmedEdge 0 0 3 4 52 44 2).endPt (3, 4) = ((44 : ℝ) + 2) ^ 2) ∧
    part000RenderEdges [((0 : ℝ), (0 : ℝ)), ((3 : ℝ), (4 : ℝ))] =
      [((3 : ℝ), (4 : ℝ))].map fun n => { start := ((0 : ℝ), (0 : ℝ)), endPt := n } :=
  ⟨by simp, C7_amended.1 0 0 3 4 (by simp),
    C7_amended.2.1 0 0 3 4 52 44 (by simp),
    C7_amended.2.2 ((0 : ℝ), (0 : ℝ)) [((3 : ℝ), (4 : ℝ))] (by simp)⟩

end Site
